import Mathlib

/-!
Verification of the openstorage NFS volume driver (`drivers/nfs/nfs.go`)
and the shared error taxonomy (`pkg/errors`).

The Go code is shallowly embedded: the driver's persisted record type, the
key-value state store, the filesystem directories the driver creates and
removes, and the trace of OS syscalls are modelled explicitly.  The outcome
of external effects that the code does not decide itself (the `uuidgen`
output, the result of `syscall.Mount` / `syscall.Unmount`) are passed in as
parameters; purely state-dependent effects (`os.Remove` succeeding iff the
path exists) are computed from the modelled state.
-/

namespace Openstorage

/-- `api.VolumeSpec`: backend-agnostic creation parameters.  Only the
fields the NFS driver reads (`Format`, via `string(v.spec.Format)`) plus
the size are modelled. -/
structure VolumeSpec where
  size : Nat
  format : String
  deriving Repr, DecidableEq

/-- `api.VolumeLocator`: user-facing name plus labels.  The NFS driver
ignores it in `Create`. -/
structure VolumeLocator where
  name : String
  labels : List (String × String)
  deriving Repr, DecidableEq

/-- `awsVolume` from `drivers/nfs/nfs.go` lines 27-34: the record the
driver persists in the DB. -/
structure AwsVolume where
  spec : VolumeSpec
  formatted : Bool
  attached : Bool
  mounted : Bool
  device : String
  mountpath : String
  deriving Repr, DecidableEq

/-- The Go zero value of `awsVolume` (all bools false, all strings empty),
used by composite literals that omit fields. -/
def AwsVolume.zero : AwsVolume :=
  { spec := { size := 0, format := "" }
    formatted := false
    attached := false
    mounted := false
    device := ""
    mountpath := "" }

/-- An OS-level error (an errno), as produced by `syscall.Mount`,
`syscall.Unmount` or `os.Remove`. -/
structure OsErr where
  errno : Nat
  deriving Repr, DecidableEq

/-- `ENOENT`, the errno `os.Remove` reports for a missing path. -/
def enoent : OsErr := ⟨2⟩

/-- The errors a driver operation can return.
`kvNotFound` is the key-value store's own error for a missing key,
propagated unchanged by the driver (`d.db.GetVal` in `nfs.go:85`);
`osError` wraps an OS syscall error; `notFound` is the typed
`ErrNotFound{ID, Type}` of the errors package; `notSupported` is the
uniform `ErrNotSupported` (struct with no fields). -/
inductive Err where
  | kvNotFound : Err
  | osError (e : OsErr) : Err
  | notFound (type_ id : String) : Err
  | notSupported : Err
  deriving Repr, DecidableEq

/-- Message rendering of the errors package (`pkg/errors`):
`ErrNotFound.Error` and `ErrNotSupported.Error`. -/
def Err.message : Err → String
  | .kvNotFound => "Key not found"
  | .osError e => "errno " ++ toString e.errno
  | .notFound type_ id => type_ ++ " with ID: " ++ id ++ " not found"
  | .notSupported => "Not Supported"

/-- One OS syscall performed by a driver operation (recorded as a trace so
theorems can speak about which target a mount/unmount addressed). -/
inductive OsEvent where
  | mountCall (source target fstype : String) : OsEvent
  | unmountCall (target : String) : OsEvent
  | removeCall (path : String) : OsEvent
  deriving Repr, DecidableEq

/-- Association-list lookup in the key-value store. -/
def storeGet : List (String × AwsVolume) → String → Option AwsVolume
  | [], _ => none
  | (k, v) :: rest, key => if k = key then some v else storeGet rest key

/-- Key-value store `Put`: overwrite the key if present, else append. -/
def storePut : List (String × AwsVolume) → String → AwsVolume → List (String × AwsVolume)
  | [], key, v => [(key, v)]
  | (k, w) :: rest, key, v =>
      if k = key then (key, v) :: rest else (k, w) :: storePut rest key v

/-- Key-value store `Delete`: remove every binding of the key. -/
def storeDel (store : List (String × AwsVolume)) (key : String) : List (String × AwsVolume) :=
  store.filter (fun kv => kv.1 ≠ key)

/-- The world a driver operation acts on: the key-value store, the set of
directories existing on the NFS backend, and the trace of OS syscalls
issued so far. -/
structure DriverState where
  store : List (String × AwsVolume)
  fs : List String
  events : List OsEvent
  deriving Repr, DecidableEq

/-- The empty initial state. -/
def DriverState.empty : DriverState := { store := [], fs := [], events := [] }

/-- `NfsDBKey` from `nfs.go:19`. -/
def NfsDBKey : String := "OpenStorageNFSKey"

/-- `nfsDriver` from `nfs.go:37-42` (the kvdb handle lives in
`DriverState`). -/
structure NfsDriver where
  nfsServer : String
  mntPath : String
  deriving Repr, DecidableEq

/-- The key computed inside `nfsDriver.get` (`nfs.go:84`). -/
def getKey (volumeID : String) : String := NfsDBKey ++ "/" ++ volumeID

/-- The key computed inside `nfsDriver.put` (`nfs.go:90`). -/
def putKey (volumeID : String) : String := NfsDBKey ++ "/" ++ volumeID

/-- The key computed inside `nfsDriver.del` (`nfs.go:96`). -/
def delKey (volumeID : String) : String := NfsDBKey ++ "/" ++ volumeID

/-- The generic key scheme of the state-store adapter: a driver-specific
prefix concatenated (with the `/` separator) with the volume ID. -/
def mkKey (prefix_ volumeID : String) : String := prefix_ ++ "/" ++ volumeID

/-- `nfsDriver.get` (`nfs.go:82-87`): `GetVal` fills the record from the
store; on a missing key the record stays the zero value and the store's
not-found error is returned. -/
def NfsDriver.get (_d : NfsDriver) (volumeID : String) (st : DriverState) :
    AwsVolume × Option Err :=
  match storeGet st.store (getKey volumeID) with
  | some v => (v, none)
  | none => (AwsVolume.zero, some Err.kvNotFound)

/-- `nfsDriver.put` (`nfs.go:89-93`): persist the record under the
driver's key (the store write itself is modelled as succeeding). -/
def NfsDriver.put (_d : NfsDriver) (volumeID : String) (v : AwsVolume)
    (st : DriverState) : DriverState :=
  { st with store := storePut st.store (putKey volumeID) v }

/-- `nfsDriver.del` (`nfs.go:95-98`). -/
def NfsDriver.del (_d : NfsDriver) (volumeID : String) (st : DriverState) :
    DriverState :=
  { st with store := storeDel st.store (delKey volumeID) }

/-- The record currently persisted for a volume ID (what `get` would
read). -/
def recordOf (st : DriverState) (volumeID : String) : Option AwsVolume :=
  storeGet st.store (getKey volumeID)

/-- `nfsDriver.Create` (`nfs.go:104-123`).  `newID` is the (trimmed)
output of `uuidgen`, an external input modelled as succeeding; `MkdirAll`
on the fresh path succeeds and adds the directory.  The initial record is
the composite literal `awsVolume{device: d.mntPath + volumeID, spec:
*spec}` — every omitted field keeps its zero value. -/
def NfsDriver.create (d : NfsDriver) (_l : VolumeLocator) (spec : VolumeSpec)
    (newID : String) (st : DriverState) : (String × Option Err) × DriverState :=
  let device := d.mntPath ++ newID
  let st1 : DriverState := { st with fs := device :: st.fs }
  let st2 := d.put newID { AwsVolume.zero with device := device, spec := spec } st1
  ((newID, none), st2)

/-- `nfsDriver.Inspect` (`nfs.go:125-127`): returns `nil, nil`
unconditionally. -/
def NfsDriver.inspect (_d : NfsDriver) (_volumeIDs : List String)
    (st : DriverState) : (Option (List AwsVolume) × Option Err) × DriverState :=
  ((none, none), st)

/-- `nfsDriver.Delete` (`nfs.go:129-144`): read the record, `os.Remove`
the device directory (which fails with `ENOENT` when the path does not
exist), then remove the record from the store. -/
def NfsDriver.delete (d : NfsDriver) (volumeID : String) (st : DriverState) :
    Option Err × DriverState :=
  match d.get volumeID st with
  | (_, some e) => (some e, st)
  | (v, none) =>
    let st1 : DriverState := { st with events := st.events ++ [OsEvent.removeCall v.device] }
    if st1.fs.contains v.device then
      let st2 : DriverState := { st1 with fs := st1.fs.filter (· ≠ v.device) }
      (none, d.del volumeID st2)
    else
      (some (Err.osError enoent), st1)

/-- `nfsDriver.Mount` (`nfs.go:174-190`): read the record, issue
`syscall.Mount(v.device, mountpath, string(v.spec.Format), 0, "")` whose
outcome `osr` is an external input, and only on success update
`mountpath`/`mounted` and persist. -/
def NfsDriver.mount (d : NfsDriver) (volumeID mountpath : String)
    (osr : Option OsErr) (st : DriverState) : Option Err × DriverState :=
  match d.get volumeID st with
  | (_, some e) => (some e, st)
  | (v, none) =>
    let st1 : DriverState :=
      { st with events := st.events ++ [OsEvent.mountCall v.device mountpath v.spec.format] }
    match osr with
    | some e => (some (Err.osError e), st1)
    | none =>
      let v1 := { v with mountpath := mountpath, mounted := true }
      (none, d.put volumeID v1 st1)

/-- `nfsDriver.Unmount` (`nfs.go:192-208`): read the record, issue
`syscall.Unmount(v.mountpath, 0)` (note: the record's mountpath, not the
argument) whose outcome `osr` is an external input, and only on success
clear `mountpath`/`mounted` and persist. -/
def NfsDriver.unmount (d : NfsDriver) (volumeID _mountpath : String)
    (osr : Option OsErr) (st : DriverState) : Option Err × DriverState :=
  match d.get volumeID st with
  | (_, some e) => (some e, st)
  | (v, none) =>
    let st1 : DriverState :=
      { st with events := st.events ++ [OsEvent.unmountCall v.mountpath] }
    match osr with
    | some e => (some (Err.osError e), st1)
    | none =>
      let v1 := { v with mountpath := "", mounted := false }
      (none, d.put volumeID v1 st1)

/-- `nfsDriver.Snapshot` (`nfs.go:146-148`): `return "",
volume.ErrNotSupported`. -/
def NfsDriver.snapshot (_d : NfsDriver) (_volumeID : String)
    (_labels : List (String × String)) : String × Option Err :=
  ("", some Err.notSupported)

/-- `nfsDriver.SnapDelete` (`nfs.go:150-152`). -/
def NfsDriver.snapDelete (_d : NfsDriver) (_snapID : String) : Option Err :=
  some Err.notSupported

/-- `nfsDriver.SnapInspect` (`nfs.go:154-156`): returns an empty slice
together with `volume.ErrNotSupported`. -/
def NfsDriver.snapInspect (_d : NfsDriver) (_snapIDs : List String) :
    Option (List AwsVolume) × Option Err :=
  (some [], some Err.notSupported)

/-- `nfsDriver.SnapEnumerate` (`nfs.go:170-172`): returns `nil` together
with `volume.ErrNotSupported`. -/
def NfsDriver.snapEnumerate (_d : NfsDriver) (_l : VolumeLocator)
    (_labels : List (String × String)) : Option (List AwsVolume) × Option Err :=
  (none, some Err.notSupported)

/-- `api.SdkStoragePool_OperationType`: the type of a pool's recorded last
operation. -/
inductive PoolOperationType where
  | none_
  | resize
  | rebalance
  deriving Repr, DecidableEq

/-- `api.StoragePoolOperation`: the pool's recorded last operation with its
human-readable progress message and parameters. -/
structure PoolOperation where
  opType : PoolOperationType
  msg : String
  params : String
  deriving Repr, DecidableEq

/-- `api.StoragePool`: the fields `ErrStoragePoolResizeInProgress.Error`
reads (`GetUuid()` and `LastOperation`, which may be nil). -/
structure StoragePool where
  uuid : String
  lastOperation : Option PoolOperation
  deriving Repr, DecidableEq

/-- `ErrStoragePoolResizeInProgress.Error` from the errors package: the
base message names the pool's uuid; when the recorded last operation is a
resize, its `Msg` and `Params` are appended (`fmt.Sprintf("%s %s %s", ...)`). -/
def errStoragePoolResizeInProgressMessage (pool : StoragePool) : String :=
  let errMsg := "a resize for pool: " ++ pool.uuid ++ " is already in progress."
  match pool.lastOperation with
  | none => errMsg
  | some op =>
    if op.opType = PoolOperationType.resize then
      errMsg ++ " " ++ op.msg ++ " " ++ op.params
    else
      errMsg

/-- `sub` occurs as a contiguous substring of `s`. -/
def ContainsSubstr (s sub : String) : Prop :=
  ∃ a b : String, s = a ++ sub ++ b

/-! ### Concrete fixtures used by counterexamples and witnesses -/

/-- A concrete driver instance (as built by `Init` with a generated mount
path). -/
def d0 : NfsDriver := { nfsServer := "srv:/export", mntPath := "/mnt/u0" }

/-- A concrete volume spec. -/
def spec0 : VolumeSpec := { size := 10, format := "ext4" }

/-- A concrete locator. -/
def l0 : VolumeLocator := { name := "v1", labels := [] }

/-- State after a successful `Create` of volume `vol1` from the empty
state. -/
def st1 : DriverState := (d0.create l0 spec0 "vol1" DriverState.empty).2

/-- State after the successful `Create` of `vol1` followed by a successful
`Mount` at `/mnt/x`. -/
def st2 : DriverState := (d0.mount "vol1" "/mnt/x" none st1).2

/-- State left by a `Delete` of `vol1` that released the backend directory
but crashed before removing the record: the record is persisted, the
device directory no longer exists. -/
def stPartial : DriverState :=
  { store := [("OpenStorageNFSKey/vol1",
      { AwsVolume.zero with device := "/mnt/u0vol1", spec := spec0 })]
    fs := []
    events := [] }

/-- The last operation of the spec scenario: a resize in progress. -/
def opEx : PoolOperation :=
  { opType := PoolOperationType.resize, msg := "expanding", params := "+50GiB" }

/-- The pool of the spec scenario. -/
def poolEx : StoragePool := { uuid := "pool-1", lastOperation := some opEx }

/-! ### Helper lemmas -/

/-- Reading back the key just written returns the written record. -/
theorem storeGet_storePut_self (s : List (String × AwsVolume)) (k : String)
    (v : AwsVolume) : storeGet (storePut s k v) k = some v := by
  induction s with
  | nil => simp [storePut, storeGet]
  | cons kv rest ih =>
    obtain ⟨k', w⟩ := kv
    by_cases hk : k' = k
    · simp [storePut, storeGet, hk]
    · simp [storePut, storeGet, hk, ih]

/-- A witness decomposition establishes substring containment. -/
theorem containsSubstr_of_eq (s a sub b : String) (h : s = a ++ sub ++ b) :
    ContainsSubstr s sub := ⟨a, b, h⟩

/-- Splitting a list at a marker character occurring in neither prefix is
unambiguous. -/
theorem append_cons_inj (c : Char) :
    ∀ (p1 p2 i1 i2 : List Char), c ∉ p1 → c ∉ p2 →
      p1 ++ c :: i1 = p2 ++ c :: i2 → p1 = p2 ∧ i1 = i2 := by
  intro p1
  induction p1 with
  | nil =>
    intro p2 i1 i2 _ hp2 h
    cases p2 with
    | nil => simpa using h
    | cons x xs =>
      simp only [List.nil_append, List.cons_append, List.cons.injEq] at h
      exact absurd (h.1 ▸ List.mem_cons_self x xs) hp2
  | cons y ys ih =>
    intro p2 i1 i2 hp1 hp2 h
    cases p2 with
    | nil =>
      simp only [List.cons_append, List.nil_append, List.cons.injEq] at h
      exact absurd (h.1.symm ▸ List.mem_cons_self y ys) hp1
    | cons x xs =>
      simp only [List.cons_append, List.cons.injEq] at h
      have hys : c ∉ ys := fun hm => hp1 (List.mem_cons_of_mem y hm)
      have hxs : c ∉ xs := fun hm => hp2 (List.mem_cons_of_mem x hm)
      obtain ⟨h1, h2⟩ := ih xs i1 i2 hys hxs h.2
      exact ⟨by rw [h.1, h1], h2⟩

/-- Two strings with the same underlying character list are equal. -/
theorem string_eq_of_data (a b : String) (h : a.data = b.data) : a = b := by
  cases a
  cases b
  exact congrArg String.mk h

/-- The generic key scheme is collision-free when prefixes do not contain
the separator. -/
theorem mkKey_inj (p1 p2 i1 i2 : String)
    (h1 : '/' ∉ p1.data) (h2 : '/' ∉ p2.data)
    (h : mkKey p1 i1 = mkKey p2 i2) : p1 = p2 ∧ i1 = i2 := by
  have hd : p1.data ++ '/' :: i1.data = p2.data ++ '/' :: i2.data := by
    have hc := congrArg String.data h
    simpa [mkKey, String.data_append] using hc
  obtain ⟨hp, hi⟩ := append_cons_inj '/' p1.data p2.data i1.data i2.data h1 h2 hd
  exact ⟨string_eq_of_data _ _ hp, string_eq_of_data _ _ hi⟩

/-! ### Claims -/

/-- C3: if the OS-level mount call inside `Mount` fails, `Mount` returns
that error and the state store (hence the volume's record) is left
unchanged. -/
theorem C3_mount_failure_leaves_record (d : NfsDriver) (vid mp : String)
    (e : OsErr) (st : DriverState) (v : AwsVolume)
    (hrec : recordOf st vid = some v) :
    (d.mount vid mp (some e) st).1 = some (Err.osError e) ∧
      (d.mount vid mp (some e) st).2.store = st.store := by
  simp only [NfsDriver.mount, NfsDriver.get, recordOf] at *
  rw [hrec]
  exact ⟨rfl, rfl⟩

/-- C3 witness: a failing OS mount on the concrete created volume returns
the wrapped error and leaves the store untouched. -/
theorem C3_mount_failure_leaves_record_witness :
    (d0.mount "vol1" "/mnt/x" (some ⟨5⟩) st1).1 = some (Err.osError ⟨5⟩) ∧
      (d0.mount "vol1" "/mnt/x" (some ⟨5⟩) st1).2.store = st1.store :=
  C3_mount_failure_leaves_record d0 "vol1" "/mnt/x" ⟨5⟩ st1
    { AwsVolume.zero with device := "/mnt/u0" ++ "vol1", spec := spec0 } (by decide)

/-- C1 counterexample: a successful `Mount` of a freshly created volume
leaves `attached == false` in the persisted record (the code never sets
`attached`), refuting the claim that the record has `attached == true`. -/
theorem C1_counterexample :
    (d0.mount "vol1" "/mnt/x" none st1).1 = none ∧
      (recordOf (d0.mount "vol1" "/mnt/x" none st1).2 "vol1").map
        AwsVolume.attached = some false := by decide

/-- C1 (amended): after a successful `Mount(volumeID, mountpath)` the
persisted record has `mounted == true` and `mountpath` equal to the
requested target, and every other field (`attached` included) keeps the
value it had before the call — `attached` is not set to true. -/
theorem C1_mount_record_amended (d : NfsDriver) (vid mp : String)
    (osr : Option OsErr) (st : DriverState)
    (h : (d.mount vid mp osr st).1 = none) :
    ∃ v, recordOf st vid = some v ∧
      recordOf (d.mount vid mp osr st).2 vid =
        some { v with mountpath := mp, mounted := true } := by
  simp only [NfsDriver.mount, NfsDriver.get, recordOf] at *
  cases hg : storeGet st.store (getKey vid) with
  | none => rw [hg] at h; simp at h
  | some v =>
    rw [hg] at h
    cases osr with
    | some e => simp at h
    | none =>
      refine ⟨v, rfl, ?_⟩
      simp only [NfsDriver.put, getKey, putKey]
      exact storeGet_storePut_self ..

/-- C1 witness: the amended statement at the concrete created volume. -/
theorem C1_mount_record_amended_witness :
    ∃ v, recordOf st1 "vol1" = some v ∧
      recordOf (d0.mount "vol1" "/mnt/x" none st1).2 "vol1" =
        some { v with mountpath := "/mnt/x", mounted := true } :=
  C1_mount_record_amended d0 "vol1" "/mnt/x" none st1 (by decide)

/-- C4: after a successful `Unmount` the persisted record has
`mounted == false` and `mountpath == ""`. -/
theorem C4_unmount_clears_record (d : NfsDriver) (vid mp : String)
    (osr : Option OsErr) (st : DriverState)
    (h : (d.unmount vid mp osr st).1 = none) :
    ∃ v, recordOf (d.unmount vid mp osr st).2 vid = some v ∧
      v.mounted = false ∧ v.mountpath = "" := by
  simp only [NfsDriver.unmount, NfsDriver.get, recordOf] at *
  cases hg : storeGet st.store (getKey vid) with
  | none => rw [hg] at h; simp at h
  | some v =>
    rw [hg] at h
    cases osr with
    | some e => simp at h
    | none =>
      refine ⟨{ v with mountpath := "", mounted := false }, ?_, rfl, rfl⟩
      simp only [NfsDriver.put, getKey, putKey]
      exact storeGet_storePut_self ..

/-- C4 witness: unmounting the concrete mounted volume clears the
record. -/
theorem C4_unmount_clears_record_witness :
    ∃ v, recordOf (d0.unmount "vol1" "/mnt/x" none st2).2 "vol1" = some v ∧
      v.mounted = false ∧ v.mountpath = "" :=
  C4_unmount_clears_record d0 "vol1" "/mnt/x" none st2 (by decide)

/-- C2 counterexample: `Inspect` on a volume ID with no persisted record
returns no error at all (`nil, nil`), so it does not fail with the typed
`NotFound` error, refuting the existence-symmetry claim for `Inspect`. -/
theorem C2_counterexample :
    recordOf DriverState.empty "vol-missing" = none ∧
      ((d0.inspect ["vol-missing"] DriverState.empty).1).2 = none := by decide

/-- C2 (amended): `Mount`, `Unmount` and `Delete` on a volume ID fail with
the state store's missing-key error (propagated unchanged, not the typed
`NotFound{ID, Type}`) exactly when no record for that ID is persisted;
`Inspect` never fails — it returns `nil, nil` for every input. -/
theorem C2_existence_amended (d : NfsDriver) (vid mp mp' : String)
    (osr osr' : Option OsErr) (ids : List String) (st : DriverState) :
    (recordOf st vid = none ↔ (d.mount vid mp osr st).1 = some Err.kvNotFound) ∧
    (recordOf st vid = none ↔ (d.unmount vid mp' osr' st).1 = some Err.kvNotFound) ∧
    (recordOf st vid = none ↔ (d.delete vid st).1 = some Err.kvNotFound) ∧
    ((d.inspect ids st).1).2 = none := by
  simp only [NfsDriver.mount, NfsDriver.unmount, NfsDriver.delete,
    NfsDriver.inspect, NfsDriver.get, recordOf]
  cases hg : storeGet st.store (getKey vid) with
  | none => simp
  | some v =>
    refine ⟨?_, ?_, ?_, trivial⟩
    · cases osr <;> simp
    · cases osr' <;> simp
    · by_cases hc : v.device ∈ st.fs <;> simp [hc]

/-- C5: retrying `Delete` after a crash between backend release and record
removal does not succeed — `os.Remove` on the already-removed device
directory fails with `ENOENT`, `Delete` returns that error, and the record
stays in the store.  This contradicts the spec's retry-safety requirement. -/
theorem C5_delete_retry_fails :
    (d0.delete "vol1" stPartial).1 = some (Err.osError enoent) ∧
      recordOf (d0.delete "vol1" stPartial).2 "vol1" =
        some { AwsVolume.zero with device := "/mnt/u0vol1", spec := spec0 } := by
  decide

/-- C6: `Snapshot`, `SnapDelete`, `SnapInspect` and `SnapEnumerate` all
fail with exactly the uniform `NotSupported` error, whose constructor
carries no fields and always renders the message "Not Supported". -/
theorem C6_snapshot_ops_not_supported (d : NfsDriver) (vid snapID : String)
    (labels labels' : List (String × String)) (snapIDs : List String)
    (l : VolumeLocator) :
    (d.snapshot vid labels).2 = some Err.notSupported ∧
    d.snapDelete snapID = some Err.notSupported ∧
    (d.snapInspect snapIDs).2 = some Err.notSupported ∧
    (d.snapEnumerate l labels').2 = some Err.notSupported ∧
    Err.message Err.notSupported = "Not Supported" :=
  ⟨rfl, rfl, rfl, rfl, rfl⟩

/-- C7: the `ResizeInProgress` message always contains the pool's
identifier, and when the recorded last operation is itself a resize it
also contains that operation's progress message and parameters. -/
theorem C7_resize_message (pool : StoragePool) :
    ContainsSubstr (errStoragePoolResizeInProgressMessage pool) pool.uuid ∧
    ∀ op, pool.lastOperation = some op →
      op.opType = PoolOperationType.resize →
      ContainsSubstr (errStoragePoolResizeInProgressMessage pool) op.msg ∧
      ContainsSubstr (errStoragePoolResizeInProgressMessage pool) op.params := by
  constructor
  · cases hop : pool.lastOperation with
    | none =>
      refine containsSubstr_of_eq _ "a resize for pool: " pool.uuid
        " is already in progress." ?_
      simp [errStoragePoolResizeInProgressMessage, hop]
    | some op =>
      by_cases hty : op.opType = PoolOperationType.resize
      · refine containsSubstr_of_eq _ "a resize for pool: " pool.uuid
          (" is already in progress." ++ " " ++ op.msg ++ " " ++ op.params) ?_
        simp [errStoragePoolResizeInProgressMessage, hop, hty, String.append_assoc]
      · refine containsSubstr_of_eq _ "a resize for pool: " pool.uuid
          " is already in progress." ?_
        simp [errStoragePoolResizeInProgressMessage, hop, hty]
  · intro op hop hty
    constructor
    · refine containsSubstr_of_eq _
        ("a resize for pool: " ++ pool.uuid ++ " is already in progress." ++ " ")
        op.msg (" " ++ op.params) ?_
      simp [errStoragePoolResizeInProgressMessage, hop, hty, String.append_assoc]
    · refine containsSubstr_of_eq _
        ("a resize for pool: " ++ pool.uuid ++ " is already in progress." ++ " "
          ++ op.msg ++ " ")
        op.params "" ?_
      simp [errStoragePoolResizeInProgressMessage, hop, hty, String.append_assoc,
        String.append_empty]

/-- C7 witness: the spec scenario — a pool with a recorded resize
operation `{Msg: "expanding", Params: "+50GiB"}` yields a message
containing "expanding" and "+50GiB". -/
theorem C7_resize_message_witness :
    ContainsSubstr (errStoragePoolResizeInProgressMessage poolEx) "expanding" ∧
      ContainsSubstr (errStoragePoolResizeInProgressMessage poolEx) "+50GiB" :=
  (C7_resize_message poolEx).2 opEx rfl rfl

/-- C8: `get`, `put` and `del` all address the same key for a volume ID,
namely the driver prefix concatenated (with the `/` separator) with the
ID; and the generic prefix-plus-ID scheme is collision-free — two keys
built from separator-free prefixes coincide only when both the prefix and
the ID coincide, so different drivers' records can never collide. -/
theorem C8_key_scheme :
    (∀ id : String, getKey id = putKey id ∧ putKey id = delKey id ∧
        getKey id = mkKey NfsDBKey id) ∧
    (∀ p1 p2 i1 i2 : String, '/' ∉ p1.data → '/' ∉ p2.data →
        mkKey p1 i1 = mkKey p2 i2 → p1 = p2 ∧ i1 = i2) :=
  ⟨fun _ => ⟨rfl, rfl, rfl⟩, fun p1 p2 i1 i2 h1 h2 h => mkKey_inj p1 p2 i1 i2 h1 h2 h⟩

/-- C8 witness: the collision-freedom part applied at the NFS driver's
own prefix (which contains no separator) and a concrete volume ID. -/
theorem C8_key_scheme_witness : NfsDBKey = NfsDBKey ∧ "vol1" = ("vol1" : String) :=
  C8_key_scheme.2 NfsDBKey NfsDBKey "vol1" "vol1" (by decide) (by decide) rfl

/-- C9: `Unmount` issues the OS-level unmount on the mountpath stored in
the persisted record and ignores its `mountpath` argument entirely — the
result and resulting state are identical for every argument value. -/
theorem C9_unmount_ignores_argument (d : NfsDriver) (vid mp mp' : String)
    (osr : Option OsErr) (st : DriverState) (v : AwsVolume)
    (h : recordOf st vid = some v) :
    d.unmount vid mp osr st = d.unmount vid mp' osr st ∧
      (d.unmount vid mp osr st).2.events =
        st.events ++ [OsEvent.unmountCall v.mountpath] := by
  refine ⟨rfl, ?_⟩
  simp only [NfsDriver.unmount, NfsDriver.get, recordOf] at *
  rw [h]
  cases osr <;> rfl

/-- C9 witness: on the concrete mounted volume, `Unmount` behaves the same
for two different argument paths and unmounts the recorded `/mnt/x`. -/
theorem C9_unmount_ignores_argument_witness :
    d0.unmount "vol1" "/a" none st2 = d0.unmount "vol1" "/b" none st2 ∧
      (d0.unmount "vol1" "/a" none st2).2.events =
        st2.events ++ [OsEvent.unmountCall "/mnt/x"] :=
  C9_unmount_ignores_argument d0 "vol1" "/a" "/b" none st2
    { AwsVolume.zero with
      device := "/mnt/u0" ++ "vol1"
      spec := spec0
      mountpath := "/mnt/x"
      mounted := true } (by decide)

/-- C10: a successful `Create` persists an initial record with
`formatted == false`, `attached == false`, `mounted == false`,
`mountpath == ""`, the supplied spec, and `device` equal to the driver's
base mount path concatenated with the new volume ID. -/
theorem C10_create_initial_record (d : NfsDriver) (l : VolumeLocator)
    (spec : VolumeSpec) (newID : String) (st : DriverState)
    (h : ((d.create l spec newID st).1).2 = none) :
    recordOf (d.create l spec newID st).2 newID =
      some { spec := spec, formatted := false, attached := false,
             mounted := false, device := d.mntPath ++ newID, mountpath := "" } := by
  simp only [NfsDriver.create, NfsDriver.put, recordOf, getKey, putKey]
  exact storeGet_storePut_self ..

/-- C10 witness: the concrete `Create` of `vol1` persists exactly the
fresh, unattached, unmounted record. -/
theorem C10_create_initial_record_witness :
    recordOf st1 "vol1" =
      some { spec := spec0, formatted := false, attached := false,
             mounted := false, device := "/mnt/u0" ++ "vol1", mountpath := "" } :=
  C10_create_initial_record d0 l0 spec0 "vol1" DriverState.empty rfl

end Openstorage
